import Mathlib

/-!
Verification development for the student-management repository.

The repository stores rows of a single `students` table in SQLite and
exposes CRUD operations plus an aggregate statistics query through two
front ends: an HTTP backend (`backend.py`) and a CLI repository layer
(`student_manager.py`).  This file shallowly embeds the schema
(`init_db.py`), the engine-enforced constraints (UNIQUE email, CHECK on
grade under SQL three-valued logic), and the operations of both layers,
and proves the specification claims about them.
-/

namespace StudentDB

/-- A row of the `students` table (`init_db.py`).  `name` and `email` are
declared NOT NULL, so they are plain strings; `grade` has no NOT NULL
constraint and is therefore nullable (`Option Int`); `created_at` is a
timestamp defaulted at insertion, modelled as a `Nat`. -/
structure Student where
  id : Nat
  name : String
  email : String
  grade : Option Int
  created_at : Nat
deriving Repr, DecidableEq

/-- The persisted table: the list of rows in storage order. -/
abbrev DB := List Student

/-! ### SQL three-valued logic and the engine-level constraints -/

/-- SQL `x >= b` on a nullable integer: NULL when the operand is NULL. -/
def sqlGE (a : Option Int) (b : Int) : Option Bool :=
  a.map fun x => decide (b ≤ x)

/-- SQL `x <= b` on a nullable integer: NULL when the operand is NULL. -/
def sqlLE (a : Option Int) (b : Int) : Option Bool :=
  a.map fun x => decide (x ≤ b)

/-- SQL three-valued AND. -/
def sqlAnd : Option Bool → Option Bool → Option Bool
  | some false, _ => some false
  | _, some false => some false
  | some true, some true => some true
  | _, _ => none

/-- A CHECK constraint passes unless its condition evaluates to FALSE;
a NULL result passes. -/
def checkPasses (v : Option Bool) : Bool := v != some false

/-- The schema's `CHECK(grade >= 0 AND grade <= 100)` from `init_db.py`,
evaluated under SQL three-valued logic. -/
def gradeCheck (g : Option Int) : Bool :=
  checkPasses (sqlAnd (sqlGE g 0) (sqlLE g 100))

/-- The UNIQUE constraint on `email`: no row of the table carries the
candidate email. -/
def emailFree (db : DB) (email : String) : Bool :=
  db.all fun s => s.email != email

/-- The engine signals constraint violations with `sqlite3.IntegrityError`. -/
inductive EngineError
  | integrityError
deriving Repr, DecidableEq

/-- Engine execution of
`INSERT INTO students (name, email, grade) VALUES (?, ?, ?)`:
the row is appended if the grade CHECK and the email UNIQUE constraint
hold, otherwise the statement fails with `IntegrityError` and the table
is unchanged.  `newId` is the AUTOINCREMENT primary key and `now` the
`CURRENT_TIMESTAMP` default. -/
def engineInsert (db : DB) (newId now : Nat) (name email : String)
    (grade : Option Int) : Except EngineError DB :=
  if gradeCheck grade && emailFree db email then
    .ok (db ++ [{ id := newId, name := name, email := email,
                  grade := grade, created_at := now }])
  else .error .integrityError

/-- `cursor.rowcount` of a statement whose WHERE clause is `id = ?`. -/
def rowcount (db : DB) (id : Nat) : Nat :=
  db.countP fun s => s.id == id

/-- Whether executing
`UPDATE students SET name = ?, email = ?, grade = ? WHERE id = ?`
violates an engine constraint: some matched row would receive a grade
failing the CHECK, or an email already carried by a different row. -/
def updateViolates (db : DB) (id : Nat) (email : String)
    (grade : Option Int) : Bool :=
  db.any fun s => s.id == id &&
    (!gradeCheck grade || db.any fun t => t.id != id && t.email == email)

/-- The row transformation performed by a successful UPDATE statement:
matched rows receive the new `name`, `email` and `grade`; `id` and
`created_at` are not in the SET list and every other row is untouched. -/
def applyUpdate (db : DB) (id : Nat) (name email : String)
    (grade : Option Int) : DB :=
  db.map fun s =>
    if s.id == id then { s with name := name, email := email, grade := grade }
    else s

/-- Engine execution of the UPDATE statement: fails atomically with
`IntegrityError` on a constraint violation, otherwise returns the new
table and the number of matched rows (`cursor.rowcount`). -/
def engineUpdate (db : DB) (id : Nat) (name email : String)
    (grade : Option Int) : Except EngineError (DB × Nat) :=
  if updateViolates db id email grade then .error .integrityError
  else .ok (applyUpdate db id name email grade, rowcount db id)

/-- Engine execution of `DELETE FROM students WHERE id = ?`: returns the
remaining table and `cursor.rowcount`. -/
def engineDelete (db : DB) (id : Nat) : DB × Nat :=
  (db.filter fun s => s.id != id, rowcount db id)

/-! ### Ordering used by the SELECT queries -/

/-- Byte-wise comparison of character lists, the BINARY collation SQLite
applies to `ORDER BY name`. -/
def charsLE : List Char → List Char → Bool
  | [], _ => true
  | _ :: _, [] => false
  | a :: as, b :: bs =>
    if a < b then true else if b < a then false else charsLE as bs

/-- `ORDER BY name` comparison on strings. -/
def strLE (a b : String) : Bool := charsLE a.data b.data

/-- SQL ordering on a nullable integer column: NULL sorts before every
value. -/
def optIntLE : Option Int → Option Int → Bool
  | none, _ => true
  | some _, none => false
  | some a, some b => decide (a ≤ b)

/-- The `ORDER BY name` (ascending) relation on rows. -/
def nameLE (a b : Student) : Prop := strLE a.name b.name = true

instance : DecidableRel nameLE := fun a b => by
  unfold nameLE; infer_instance

/-- The `ORDER BY grade DESC` relation on rows: the later row's grade is
at most the earlier one's. -/
def gradeDescLE (a b : Student) : Prop := optIntLE b.grade a.grade = true

instance : DecidableRel gradeDescLE := fun a b => by
  unfold gradeDescLE; infer_instance

/-- The WHERE clause `grade >= ?` keeps a row only when the comparison
evaluates to TRUE; a NULL grade yields NULL and the row is dropped. -/
def whereGradeGE (m : Int) (s : Student) : Bool :=
  sqlGE s.grade m == some true

/-- `SELECT * FROM students ORDER BY name`
(`get_all_students` in `student_manager.py`, and the no-filter branch of
`get_students` in `backend.py`). -/
def get_all_students (db : DB) : List Student :=
  List.insertionSort nameLE db

/-- `SELECT * FROM students WHERE grade >= ? ORDER BY grade DESC`
(`filter_students_by_grade` in `student_manager.py`, and the filter
branch of `get_students` in `backend.py`). -/
def filter_students_by_grade (db : DB) (min_grade : Int) : List Student :=
  List.insertionSort gradeDescLE (db.filter (whereGradeGE min_grade))

/-! ### The statistics query -/

/-- CASE condition `grade >= 90` of the `a_students` bucket. -/
def isA (g : Int) : Bool := decide (90 ≤ g)

/-- CASE condition `grade >= 80 AND grade < 90` of the `b_students` bucket. -/
def isB (g : Int) : Bool := decide (80 ≤ g ∧ g < 90)

/-- CASE condition `grade >= 70 AND grade < 80` of the `c_students` bucket. -/
def isC (g : Int) : Bool := decide (70 ≤ g ∧ g < 80)

/-- CASE condition `grade < 70` of the `failing_students` bucket. -/
def isFailing (g : Int) : Bool := decide (g < 70)

/-- `COUNT(CASE WHEN p(grade) THEN 1 END)`: rows whose grade is NULL make
the condition NULL and are not counted. -/
def countGrade (db : DB) (p : Int → Bool) : Nat :=
  db.countP fun s => (s.grade.map p).getD false

/-- The non-NULL grades of the table, as aggregated by AVG/MAX/MIN. -/
def gradeList (db : DB) : List Int :=
  db.filterMap fun s => s.grade

/-- SQL `MAX` over the non-NULL values; NULL when there are none. -/
def listMax : List Int → Option Int
  | [] => none
  | g :: gs =>
    match listMax gs with
    | none => some g
    | some m => some (max g m)

/-- SQL `MIN` over the non-NULL values; NULL when there are none. -/
def listMin : List Int → Option Int
  | [] => none
  | g :: gs =>
    match listMin gs with
    | none => some g
    | some m => some (min g m)

/-- The aggregate record produced by the statistics query. -/
structure Stats where
  total_students : Nat
  average_grade : Option ℚ
  highest_grade : Option Int
  lowest_grade : Option Int
  a_students : Nat
  b_students : Nat
  c_students : Nat
  failing_students : Nat
deriving Repr, DecidableEq

/-- The statistics aggregation (`get_statistics` in both
`student_manager.py` and `backend.py`; the SQL text is identical):
`COUNT(*)` counts every row, `AVG`/`MAX`/`MIN` aggregate the non-NULL
grades (NULL on no values), and the four bucket counts use
`COUNT(CASE WHEN ... THEN 1 END)`. -/
def get_statistics (db : DB) : Stats :=
  let gs := gradeList db
  { total_students := db.length
    average_grade :=
      if gs.length = 0 then none
      else some ((gs.map fun g => (g : ℚ)).sum / gs.length)
    highest_grade := listMax gs
    lowest_grade := listMin gs
    a_students := countGrade db isA
    b_students := countGrade db isB
    c_students := countGrade db isC
    failing_students := countGrade db isFailing }

/-! ### The CLI repository layer (`student_manager.py`) -/

/-- Errors raised by the repository functions: `ValueError` for an
out-of-range grade, and the engine's `IntegrityError`, which
`add_student`/`update_student` do not catch. -/
inductive MgrError
  | valueError
  | integrityError
deriving Repr, DecidableEq

/-- `add_student(name, email, grade)`: raises `ValueError` before any
statement when the grade is outside [0,100]; otherwise executes the
INSERT and returns `cursor.lastrowid`. -/
def add_student (db : DB) (newId now : Nat) (name email : String)
    (grade : Int) : Except MgrError (DB × Nat) :=
  if ¬ (0 ≤ grade ∧ grade ≤ 100) then .error .valueError
  else
    match engineInsert db newId now name email (some grade) with
    | .error _ => .error .integrityError
    | .ok db2 => .ok (db2, newId)

/-- `update_student(student_id, name, email, grade)`: raises `ValueError`
before any statement when the grade is outside [0,100]; otherwise
executes the UPDATE and returns `cursor.rowcount > 0`. -/
def update_student (db : DB) (student_id : Nat) (name email : String)
    (grade : Int) : Except MgrError (DB × Bool) :=
  if ¬ (0 ≤ grade ∧ grade ≤ 100) then .error .valueError
  else
    match engineUpdate db student_id name email (some grade) with
    | .error _ => .error .integrityError
    | .ok (db2, n) => .ok (db2, decide (0 < n))

/-- `delete_student(student_id)`: executes the DELETE and returns
`cursor.rowcount > 0`. -/
def delete_student (db : DB) (student_id : Nat) : DB × Bool :=
  let p := engineDelete db student_id
  (p.1, decide (0 < p.2))

/-! ### The HTTP backend (`backend.py`) -/

/-- The error outcomes of the HTTP routes: the 400 responses issued by
`validate_json` and the handlers, the 404 response, and an uncaught
engine exception (an HTTP 500, classified by the spec as an engine
failure). -/
inductive ApiError
  | missingField (field : String)
  | invalidGrade
  | duplicateEmail
  | notFound
  | engineFailure
deriving Repr, DecidableEq

/-- A JSON request body: each of the three expected fields may be absent. -/
structure RequestBody where
  name : Option String
  email : Option String
  grade : Option Int
deriving Repr, DecidableEq

namespace Backend

/-- `GET /api/students` (`get_students`): without `min_grade` select all
rows ordered by name; with it, the rows with `grade >= min_grade`
ordered by grade descending. -/
def get_students (db : DB) (min_grade : Option Int) : List Student :=
  match min_grade with
  | some m => filter_students_by_grade db m
  | none => get_all_students db

/-- `POST /api/students` (`create_student`): `validate_json` checks the
fields `name`, `email`, `grade` in order and aborts 400 naming the first
missing one; then the grade range is checked; then the INSERT runs with
`sqlite3.IntegrityError` caught and turned into the 400 duplicate-email
response.  Returns the new id. -/
def create_student (db : DB) (newId now : Nat) (body : RequestBody) :
    Except ApiError (DB × Nat) :=
  match body.name, body.email, body.grade with
  | none, _, _ => .error (.missingField "name")
  | some _, none, _ => .error (.missingField "email")
  | some _, some _, none => .error (.missingField "grade")
  | some name, some email, some grade =>
    if ¬ (0 ≤ grade ∧ grade ≤ 100) then .error .invalidGrade
    else
      match engineInsert db newId now name email (some grade) with
      | .error _ => .error .duplicateEmail
      | .ok db2 => .ok (db2, newId)

/-- `PUT /api/students/<id>` (`update_student`): `validate_json` checks
the three fields, then an existence query aborts 404 when no row has the
id, then the UPDATE statement runs.  Faithful to the source, there is no
grade-range check and no `IntegrityError` handler on this route: an
engine constraint violation escapes as an uncaught exception. -/
def update_student (db : DB) (student_id : Nat) (body : RequestBody) :
    Except ApiError DB :=
  match body.name, body.email, body.grade with
  | none, _, _ => .error (.missingField "name")
  | some _, none, _ => .error (.missingField "email")
  | some _, some _, none => .error (.missingField "grade")
  | some name, some email, some grade =>
    if db.all fun s => s.id != student_id then .error .notFound
    else
      match engineUpdate db student_id name email (some grade) with
      | .error _ => .error .engineFailure
      | .ok (db2, _) => .ok db2

/-- `DELETE /api/students/<id>` (`delete_student`): runs the DELETE and
aborts 404 when `cursor.rowcount` is zero. -/
def delete_student (db : DB) (student_id : Nat) : Except ApiError DB :=
  let p := engineDelete db student_id
  if p.2 = 0 then .error .notFound else .ok p.1

/-- `GET /api/statistics` (`get_statistics`): the SQL text is identical
to the CLI layer's statistics query. -/
def get_statistics (db : DB) : Stats := StudentDB.get_statistics db

end Backend

/-! ### Concrete tables used by the scenario claims -/

/-- The sample data of `init_db.py`. -/
def sample_students : List (String × String × Int) :=
  [("Alice Johnson", "alice@school.edu", 92),
   ("Bob Smith", "bob@school.edu", 78),
   ("Charlie Brown", "charlie@school.edu", 85),
   ("Diana Prince", "diana@school.edu", 95),
   ("Eve Adams", "eve@school.edu", 88)]

/-- Successive `add_student` calls on a fresh table, with AUTOINCREMENT
ids starting at 1; stops at the first raised error. -/
def insertAll : DB → Nat → List (String × String × Int) →
    Except MgrError (DB × Nat)
  | db, nid, [] => .ok (db, nid)
  | db, nid, (n, e, g) :: rest =>
    match add_student db nid 0 n e g with
    | .error err => .error err
    | .ok (db2, _) => insertAll db2 (nid + 1) rest

/-- The table produced by inserting the five sample students. -/
def scenarioDB : DB :=
  [⟨1, "Alice Johnson", "alice@school.edu", some 92, 0⟩,
   ⟨2, "Bob Smith", "bob@school.edu", some 78, 0⟩,
   ⟨3, "Charlie Brown", "charlie@school.edu", some 85, 0⟩,
   ⟨4, "Diana Prince", "diana@school.edu", some 95, 0⟩,
   ⟨5, "Eve Adams", "eve@school.edu", some 88, 0⟩]

/-- A one-row table. -/
def aliceRow : Student := ⟨1, "Alice Johnson", "alice@school.edu", some 92, 0⟩

/-- A second row for the duplicate-email scenario. -/
def bobRow : Student := ⟨2, "Bob Smith", "bob@school.edu", some 78, 0⟩

/-- A row whose grade is NULL, as the schema accepts. -/
def ghostRow : Student := ⟨7, "Ghost Writer", "ghost@school.edu", none, 0⟩

/-- A two-row table used to exercise the update operation. -/
def demoDb : DB := [aliceRow, bobRow]

/-- A request body whose `email` field is absent. -/
def zedBody : RequestBody := ⟨some "Zed Carter", none, some 50⟩

/-! ### Helper lemmas -/

theorem charsLE_total : ∀ a b : List Char, charsLE a b = true ∨ charsLE b a = true
  | [], _ => Or.inl rfl
  | _ :: _, [] => Or.inr rfl
  | a :: as, b :: bs => by
    simp only [charsLE]
    rcases lt_trichotomy a b with h | h | h
    · left; simp [h]
    · subst h
      simp only [lt_irrefl, if_false]
      exact charsLE_total as bs
    · right; simp [h]

theorem charsLE_trans : ∀ a b c : List Char,
    charsLE a b = true → charsLE b c = true → charsLE a c = true
  | [], _, _, _, _ => rfl
  | _ :: _, [], _, h, _ => absurd h (by simp [charsLE])
  | _ :: _, _ :: _, [], _, h => absurd h (by simp [charsLE])
  | a :: as, b :: bs, c :: cs, h1, h2 => by
    simp only [charsLE] at h1 h2 ⊢
    by_cases hab : a < b
    · by_cases hac : a < c
      · simp [hac]
      · by_cases hbc : b < c
        · exact absurd (lt_trans hab hbc) hac
        · by_cases hcb : c < b
          · simp [hbc, hcb] at h2
          · have hbc2 : b = c := le_antisymm (not_lt.mp hcb) (not_lt.mp hbc)
            exact absurd (hbc2 ▸ hab) hac
    · by_cases hba : b < a
      · simp [hab, hba] at h1
      · have hab2 : a = b := le_antisymm (not_lt.mp hba) (not_lt.mp hab)
        subst hab2
        simp only [lt_irrefl, if_false] at h1
        by_cases hac : a < c
        · simp [hac]
        · by_cases hca : c < a
          · simp [hac, hca] at h2
          · simp only [hac, hca, if_false]
            simp only [hac, hca, if_false] at h2
            exact charsLE_trans as bs cs h1 h2

theorem optIntLE_total (a b : Option Int) : optIntLE a b = true ∨ optIntLE b a = true := by
  cases a <;> cases b <;> simp [optIntLE] <;> omega

theorem optIntLE_trans {a b c : Option Int} :
    optIntLE a b = true → optIntLE b c = true → optIntLE a c = true := by
  cases a <;> cases b <;> cases c <;> simp [optIntLE] <;> omega

theorem whereGradeGE_iff (m : Int) (s : Student) :
    whereGradeGE m s = true ↔ ∃ g, s.grade = some g ∧ m ≤ g := by
  cases h : s.grade <;> simp [whereGradeGE, sqlGE, h]

theorem bucket_count_one (g : Int) :
    ((if isA g then 1 else 0) + (if isB g then 1 else 0) +
     (if isC g then 1 else 0) + (if isFailing g then 1 else 0) : Nat) = 1 := by
  simp only [isA, isB, isC, isFailing, decide_eq_true_eq]
  split_ifs <;> omega

theorem countGrade_partition : ∀ db : DB, (∀ s ∈ db, s.grade.isSome) →
    countGrade db isA + countGrade db isB + countGrade db isC +
      countGrade db isFailing = db.length := by
  intro db
  induction db with
  | nil => intro _; rfl
  | cons s rest ih =>
    intro h
    obtain ⟨g, hg⟩ := Option.isSome_iff_exists.mp (h s (by simp))
    have ihh := ih fun t ht => h t (by simp [ht])
    have hone := bucket_count_one g
    simp only [countGrade, List.countP_cons, List.length_cons] at ihh ⊢
    rw [hg]
    simp only [Option.map_some', Option.getD_some]
    linarith

/-! ### Claim theorems -/

/-- C1: the claim says every create/update with a grade outside [0,100]
fails with InvalidGrade before any statement executes.  The HTTP
backend's update route has no grade-range check: with a row of id 1
present, a PUT carrying grade 150 reaches the UPDATE statement, the
engine's CHECK constraint rejects it, and the uncaught IntegrityError
surfaces as an engine failure (HTTP 500), not as the InvalidGrade
response.  The table is unchanged only because the engine rejects the
statement. -/
theorem backend_update_grade_unchecked :
    Backend.update_student [aliceRow] 1
        ⟨some "Alice Johnson", some "alice@school.edu", some 150⟩
      = .error .engineFailure ∧
    Backend.update_student [aliceRow] 1
        ⟨some "Alice Johnson", some "alice@school.edu", some 150⟩
      ≠ .error .invalidGrade := by
  refine ⟨rfl, fun h => ?_⟩
  rw [show Backend.update_student [aliceRow] 1
        ⟨some "Alice Johnson", some "alice@school.edu", some 150⟩
      = Except.error ApiError.engineFailure from rfl] at h
  simp at h

/-- C2: the claim says every create and every update hitting a duplicate
email fails with DuplicateEmail by catching the engine's
uniqueness-violation signal at the write.  The create route does exactly
that, but the update route has no IntegrityError handler: updating Bob
(id 2) to Alice's email makes the UNIQUE violation escape as an uncaught
engine failure (HTTP 500), not as the DuplicateEmail response. -/
theorem backend_update_duplicate_email_uncaught :
    Backend.create_student [aliceRow, bobRow] 3 0
        ⟨some "Zed Carter", some "alice@school.edu", some 50⟩
      = .error .duplicateEmail ∧
    Backend.update_student [aliceRow, bobRow] 2
        ⟨some "Bob Smith", some "alice@school.edu", some 78⟩
      = .error .engineFailure ∧
    Backend.update_student [aliceRow, bobRow] 2
        ⟨some "Bob Smith", some "alice@school.edu", some 78⟩
      ≠ .error .duplicateEmail := by
  refine ⟨rfl, rfl, fun h => ?_⟩
  rw [show Backend.update_student [aliceRow, bobRow] 2
        ⟨some "Bob Smith", some "alice@school.edu", some 78⟩
      = Except.error ApiError.engineFailure from rfl] at h
  simp at h

/-- C4 counterexample: on a table holding one row whose grade is NULL,
the four bucket counts are all zero while total_students is 1, so the
buckets do not sum to the total for every database state the schema
admits. -/
theorem statistics_buckets_null_grade_cex :
    (get_statistics [ghostRow]).a_students + (get_statistics [ghostRow]).b_students +
      (get_statistics [ghostRow]).c_students +
      (get_statistics [ghostRow]).failing_students ≠
      (get_statistics [ghostRow]).total_students := by decide

/-- C7: starting from an empty table, inserting the five sample students
with grades 92, 78, 85, 95 and 88 through `add_student` yields ids 1..5,
and the statistics query then reports total 5, average 87.6, highest 95,
lowest 78, and bucket counts a=2, b=2, c=1, failing=0. -/
theorem sample_scenario_statistics :
    insertAll [] 1 sample_students = .ok (scenarioDB, 6) ∧
    get_statistics scenarioDB = ⟨5, some 87.6, some 95, some 78, 2, 2, 1, 0⟩ := by
  refine ⟨rfl, ?_⟩
  unfold get_statistics
  norm_num [gradeList, scenarioDB, listMax, listMin, countGrade, isA, isB, isC, isFailing,
    List.countP, List.countP.go, List.filterMap_cons, List.filterMap_nil]

/-- C9: on an empty table the statistics query returns zero for
total_students and all four buckets, and NULL for average_grade,
highest_grade and lowest_grade. -/
theorem statistics_empty_table :
    get_statistics [] = ⟨0, none, none, none, 0, 0, 0, 0⟩ := rfl

/-- C10: the schema leaves `grade` nullable and its CHECK constraint is
satisfied by NULL under SQL three-valued logic, so the engine accepts an
INSERT with a NULL grade; the resulting row counts in total_students and
falls into none of the four buckets. -/
theorem null_grade_schema_gap :
    gradeCheck none = true ∧
    engineInsert [] 7 0 "Ghost Writer" "ghost@school.edu" none = .ok [ghostRow] ∧
    (get_statistics [ghostRow]).total_students = 1 ∧
    (get_statistics [ghostRow]).a_students = 0 ∧
    (get_statistics [ghostRow]).b_students = 0 ∧
    (get_statistics [ghostRow]).c_students = 0 ∧
    (get_statistics [ghostRow]).failing_students = 0 :=
  ⟨rfl, rfl, rfl, rfl, rfl, rfl, rfl⟩

/-- C3: without a minGrade argument the list operation returns all rows
(a permutation of the table) ordered by name ascending; with a minGrade
argument it returns exactly the rows whose grade is at least minGrade,
ordered by grade descending; and on an empty table both forms return the
empty sequence rather than failing. -/
theorem get_students_ordering (db : DB) (m : Int) :
    (Backend.get_students db none).Perm db ∧
    List.Sorted nameLE (Backend.get_students db none) ∧
    (Backend.get_students db (some m)).Perm (db.filter (whereGradeGE m)) ∧
    (∀ s, s ∈ Backend.get_students db (some m) ↔
      s ∈ db ∧ ∃ g, s.grade = some g ∧ m ≤ g) ∧
    List.Sorted gradeDescLE (Backend.get_students db (some m)) ∧
    Backend.get_students [] none = [] ∧
    Backend.get_students [] (some m) = [] := by
  haveI iT1 : IsTotal Student nameLE :=
    ⟨fun a b => charsLE_total a.name.data b.name.data⟩
  haveI iR1 : IsTrans Student nameLE :=
    ⟨fun a b c => charsLE_trans a.name.data b.name.data c.name.data⟩
  haveI iT2 : IsTotal Student gradeDescLE :=
    ⟨fun a b => optIntLE_total b.grade a.grade⟩
  haveI iR2 : IsTrans Student gradeDescLE :=
    ⟨fun _ _ _ h1 h2 => optIntLE_trans h2 h1⟩
  refine ⟨List.perm_insertionSort nameLE db, List.sorted_insertionSort nameLE db,
    List.perm_insertionSort gradeDescLE _, ?_,
    List.sorted_insertionSort gradeDescLE _, rfl, rfl⟩
  intro s
  rw [show Backend.get_students db (some m) = filter_students_by_grade db m from rfl,
    filter_students_by_grade,
    (List.perm_insertionSort gradeDescLE _).mem_iff, List.mem_filter]
  exact and_congr_right fun _ => whereGradeGE_iff m s

/-- C4 (amended): the four bucket conditions are mutually exclusive and
exhaustive over the integer grades, so on every table in which each
row's grade is non-NULL — as is the case for every row written through
the validated create and update operations — the bucket counts sum
exactly to total_students, each row being counted in exactly one
bucket.  (Rows with a NULL grade, which the schema admits, count in the
total but in no bucket.) -/
theorem statistics_buckets_partition (db : DB) (h : ∀ s ∈ db, s.grade.isSome) :
    (get_statistics db).a_students + (get_statistics db).b_students +
      (get_statistics db).c_students + (get_statistics db).failing_students =
      (get_statistics db).total_students ∧
    ∀ s ∈ db, ∀ g : Int, s.grade = some g →
      ((if isA g then 1 else 0) + (if isB g then 1 else 0) +
       (if isC g then 1 else 0) + (if isFailing g then 1 else 0) : Nat) = 1 := by
  refine ⟨?_, fun s _ g _ => bucket_count_one g⟩
  simpa [get_statistics] using countGrade_partition db h

/-- Witness for the amended C4 theorem at the five-row sample table. -/
theorem statistics_buckets_partition_witness :
    (∀ s ∈ scenarioDB, s.grade.isSome) ∧
    ((get_statistics scenarioDB).a_students + (get_statistics scenarioDB).b_students +
      (get_statistics scenarioDB).c_students + (get_statistics scenarioDB).failing_students =
      (get_statistics scenarioDB).total_students ∧
    ∀ s ∈ scenarioDB, ∀ g : Int, s.grade = some g →
      ((if isA g then 1 else 0) + (if isB g then 1 else 0) +
       (if isC g then 1 else 0) + (if isFailing g then 1 else 0) : Nat) = 1) :=
  ⟨by decide, statistics_buckets_partition scenarioDB (by decide)⟩

/-- C8: a create request whose body lacks any of the fields name, email
or grade fails with a MissingField error naming an absent field (the
first absent one in the order name, email, grade), and the write is
never attempted. -/
theorem create_missing_field (db : DB) (newId now : Nat) (body : RequestBody)
    (h : body.name = none ∨ body.email = none ∨ body.grade = none) :
    ∃ f, Backend.create_student db newId now body = .error (.missingField f) ∧
      ((f = "name" ∧ body.name = none) ∨ (f = "email" ∧ body.email = none) ∨
       (f = "grade" ∧ body.grade = none)) := by
  obtain ⟨n, e, g⟩ := body
  rcases n with _ | n
  · exact ⟨"name", rfl, Or.inl ⟨rfl, rfl⟩⟩
  rcases e with _ | e
  · exact ⟨"email", rfl, Or.inr (Or.inl ⟨rfl, rfl⟩)⟩
  rcases g with _ | g
  · exact ⟨"grade", rfl, Or.inr (Or.inr ⟨rfl, rfl⟩)⟩
  · simp at h

/-- Witness for the C8 theorem at a body whose email field is absent. -/
theorem create_missing_field_witness :
    (zedBody.name = none ∨ zedBody.email = none ∨ zedBody.grade = none) ∧
    (∃ f, Backend.create_student [] 1 0 zedBody = .error (.missingField f) ∧
      ((f = "name" ∧ zedBody.name = none) ∨ (f = "email" ∧ zedBody.email = none) ∨
       (f = "grade" ∧ zedBody.grade = none))) :=
  ⟨Or.inr (Or.inl rfl), create_missing_field [] 1 0 zedBody (Or.inr (Or.inl rfl))⟩

/-- C5: an update with an in-range grade and a non-conflicting email
succeeds; when the id is present it overwrites only the name, email and
grade of the matching row, preserving its id and created_at and leaving
every other row untouched, and reports true; when the id is absent it
reports false, creates no row (the table keeps its length — in fact it
is unchanged), and the stored table is identical before and after. -/
theorem update_student_frame (db : DB) (id : Nat) (name email : String) (grade : Int)
    (hg : 0 ≤ grade ∧ grade ≤ 100)
    (he : ∀ t ∈ db, t.id ≠ id → t.email ≠ email) :
    ∃ db2 r, update_student db id name email grade = .ok (db2, r) ∧
      db2.length = db.length ∧
      List.Forall₂ (fun s t : Student =>
        t.id = s.id ∧ t.created_at = s.created_at ∧
        (s.id ≠ id → t = s) ∧
        (s.id = id → t.name = name ∧ t.email = email ∧ t.grade = some grade)) db db2 ∧
      (r = true ↔ ∃ s ∈ db, s.id = id) ∧
      ((∀ s ∈ db, s.id ≠ id) → db2 = db ∧ r = false) := by
  have hck : gradeCheck (some grade) = true := by
    obtain ⟨h1, h2⟩ := hg
    simp [gradeCheck, sqlGE, sqlLE, sqlAnd, checkPasses, h1, h2]
  have hviol : updateViolates db id email (some grade) = false := by
    rw [updateViolates, List.any_eq_false]
    intro s _
    rw [hck]
    simp only [Bool.not_true, Bool.false_or, Bool.and_eq_true, not_and]
    intro _
    simp only [Bool.not_eq_true]
    rw [List.any_eq_false]
    intro t ht
    by_cases hti : t.id = id
    · simp [hti]
    · simp [bne, beq_eq_false_iff_ne.mpr hti, beq_eq_false_iff_ne.mpr (he t ht hti)]
  have hstep : update_student db id name email grade =
      .ok (applyUpdate db id name email (some grade), decide (0 < rowcount db id)) := by
    rw [update_student, if_neg (not_not_intro hg), engineUpdate, hviol]
    rfl
  refine ⟨_, _, hstep, ?_, ?_, ?_, ?_⟩
  · exact List.length_map db _
  · rw [applyUpdate, List.forall₂_map_right_iff, List.forall₂_same]
    intro s _
    by_cases hid : s.id = id
    · simp [hid]
    · simp [beq_eq_false_iff_ne.mpr hid, hid]
  · simp only [decide_eq_true_eq, rowcount]
    rw [List.countP_pos_iff]
    simp [beq_iff_eq]
  · intro hnone
    constructor
    · rw [applyUpdate]
      have hfix : ∀ s ∈ db,
          (if s.id == id then
            { s with name := name, email := email, grade := some grade }
          else s) = s :=
        fun s hs => by simp [beq_eq_false_iff_ne.mpr (hnone s hs)]
      exact (List.map_congr_left hfix).trans (List.map_id db)
    · have hzero : rowcount db id = 0 := by
        rw [rowcount, List.countP_eq_zero]
        intro s hs
        simp [beq_iff_eq]
        exact hnone s hs
      simp [hzero]

/-- Witness for the C5 theorem: updating the present id 1 of the two-row
demo table with grade 90 and a fresh email. -/
theorem update_student_frame_witness :
    ((0:Int) ≤ 90 ∧ (90:Int) ≤ 100) ∧
    (∀ t ∈ demoDb, t.id ≠ 1 → t.email ≠ "alicia@school.edu") ∧
    (∃ db2 r, update_student demoDb 1 "Alicia Johnson" "alicia@school.edu" 90 = .ok (db2, r) ∧
      db2.length = demoDb.length ∧
      List.Forall₂ (fun s t : Student =>
        t.id = s.id ∧ t.created_at = s.created_at ∧
        (s.id ≠ 1 → t = s) ∧
        (s.id = 1 → t.name = "Alicia Johnson" ∧ t.email = "alicia@school.edu" ∧
          t.grade = some 90)) demoDb db2 ∧
      (r = true ↔ ∃ s ∈ demoDb, s.id = 1) ∧
      ((∀ s ∈ demoDb, s.id ≠ 1) → db2 = demoDb ∧ r = false)) :=
  ⟨by decide, by decide,
    update_student_frame demoDb 1 "Alicia Johnson" "alicia@school.edu" 90
      (by decide) (by decide)⟩

/-- C6: delete removes exactly the rows carrying the id and keeps every
other row; it reports true precisely when a row with the id was present;
deleting an absent id leaves the table unchanged; and deleting the same
id a second time reports false and changes nothing, so the operation is
idempotent and never an error at this layer. -/
theorem delete_student_idempotent (db : DB) (id : Nat) :
    (∀ s ∈ (delete_student db id).1, s.id ≠ id) ∧
    (∀ s ∈ db, s.id ≠ id → s ∈ (delete_student db id).1) ∧
    ((delete_student db id).2 = true ↔ ∃ s ∈ db, s.id = id) ∧
    ((∀ s ∈ db, s.id ≠ id) → (delete_student db id).1 = db) ∧
    delete_student (delete_student db id).1 id = ((delete_student db id).1, false) := by
  refine ⟨?_, ?_, ?_, ?_, ?_⟩
  · intro s hs
    simp only [delete_student, engineDelete] at hs
    have := (List.mem_filter.mp hs).2
    simpa [bne_iff_ne] using this
  · intro s hs hne
    simp only [delete_student, engineDelete]
    exact List.mem_filter.mpr ⟨hs, by simpa [bne_iff_ne] using hne⟩
  · simp only [delete_student, engineDelete, decide_eq_true_eq, rowcount]
    rw [List.countP_pos_iff]
    simp [beq_iff_eq]
  · intro hnone
    simp only [delete_student, engineDelete]
    rw [List.filter_eq_self]
    intro s hs
    simpa [bne_iff_ne] using hnone s hs
  · simp only [delete_student, engineDelete]
    have h1 : List.filter (fun s => s.id != id) (List.filter (fun s => s.id != id) db) =
        List.filter (fun s => s.id != id) db :=
      List.filter_eq_self.mpr fun s hs => (List.mem_filter.mp hs).2
    have h2 : rowcount (List.filter (fun s => s.id != id) db) id = 0 := by
      rw [rowcount, List.countP_eq_zero]
      intro s hs
      have := (List.mem_filter.mp hs).2
      simp only [bne_iff_ne] at this
      simp [beq_iff_eq, this]
    rw [h1]
    simp [h2]

end StudentDB
